import Mathlib

/-!
# Verification of the Excel-sheets-to-PDF converter (`src/app.py`)

Shallow embedding of the conversion pipeline: cell values, the bidi text
shaper `reshape_rtl`, the grid builder `df_to_table_data`, the filename
sanitizer `sanitize_filename`, the page-size choice, and the per-sheet
orchestration loop of `convert`.

Strings are modelled by Lean `String` (a wrapper around `List Char`);
the helpers `strAny`, `strMap`, `strReverse`, `strFilter` make the
character-level operations of the Python source explicit.
-/

namespace XlsToPdf

/-- Python-level helper: `any(p(ch) for ch in s)`. -/
def strAny (p : Char → Bool) (s : String) : Bool :=
  s.data.any p

/-- Character-wise map over a string. -/
def strMap (f : Char → Char) (s : String) : String :=
  ⟨s.data.map f⟩

/-- Reverse of a string's character sequence. -/
def strReverse (s : String) : String :=
  ⟨s.data.reverse⟩

/-- Keep the characters satisfying `p`, in order (`"".join(c for c in s if p(c))`). -/
def strFilter (p : Char → Bool) (s : String) : String :=
  ⟨s.data.filter p⟩

/-- A scalar spreadsheet cell value as pandas hands it to the app:
a string, an integer, a boolean, Python `None`, or the float NaN
sentinel pandas uses for missing cells. -/
inductive Cell where
  | str (s : String)
  | int (n : Int)
  | bool (b : Bool)
  | none
  | nan
deriving DecidableEq, Repr

/-- Pandas missing-value test `pd.isna` (src/app.py line 83): true exactly for `None` and NaN. -/
def Cell.isna : Cell → Bool
  | .none => true
  | .nan => true
  | _ => false

/-- Python `str(x)` on the scalar cell values above. -/
def cellStr : Cell → String
  | .str s => s
  | .int n => toString n
  | .bool b => if b then "True" else "False"
  | .none => "None"
  | .nan => "nan"

/-- Membership in the Arabic script ranges checked at src/app.py line 64:
U+0600–U+06FF, U+0750–U+077F, U+08A0–U+08FF. -/
def isArabicChar (c : Char) : Bool :=
  (0x600 ≤ c.toNat && c.toNat ≤ 0x6FF) ||
  (0x750 ≤ c.toNat && c.toNat ≤ 0x77F) ||
  (0x8A0 ≤ c.toNat && c.toNat ≤ 0x8FF)

/-- An Arabic letter proper (hamza through yeh, U+0621–U+064A): the
characters that contextual reshaping replaces by presentation forms. -/
def isArabicLetter (c : Char) : Bool :=
  0x621 ≤ c.toNat && c.toNat ≤ 0x64A

/-- Modelled from the spec: the presentation form an Arabic letter is
replaced by during glyph-joining reshaping (spec §4.2 step 4: "letters
choose initial/medial/final/isolated presentation forms based on
neighbors"). The actual form depends on neighbours in the
`arabic_reshaper` library, which is not part of this repository; the
model keeps the essential fact that every chosen form lives in the
Arabic Presentation Forms block U+FE80 upward, outside the three
detection ranges of `isArabicChar`. -/
def presentationForm (c : Char) : Char :=
  Char.ofNat (0xFE80 + (c.toNat - 0x621))

/-- Modelled from the spec: `arabic_reshaper.reshape` (external library,
src/app.py line 65). Spec §4.2 step 4: contextual glyph-joining
reshaping replaces each Arabic letter by a presentation form; all other
characters (digits, punctuation, non-Arabic text) pass through. -/
def reshape (s : String) : String :=
  strMap (fun c => if isArabicLetter c then presentationForm c else c) s

/-- A character drawn right-to-left: the Arabic ranges plus the Arabic
presentation-forms blocks U+FB50–U+FEFF produced by reshaping. -/
def isRTLChar (c : Char) : Bool :=
  isArabicChar c || (0xFB50 ≤ c.toNat && c.toNat ≤ 0xFEFF)

/-- Modelled from the spec: `bidi.algorithm.get_display` (external
library, src/app.py line 66). Spec §4.2 step 4: "a bidirectional
algorithm that reorders the logical string into visual (left-to-right
storage, right-to-left display) order". The model reorders a string
that contains right-to-left characters by reversing its character
sequence, and leaves a purely left-to-right string unchanged. -/
def get_display (s : String) : String :=
  if strAny isRTLChar s then strReverse s else s

/-- The shaper `reshape_rtl` (src/app.py lines 54–70): `None` becomes `""`; the
value is stringified; if any character lies in the Arabic ranges the
string is reshaped and bidi-reordered, otherwise it is returned
unchanged. -/
def reshape_rtl (text : Cell) : String :=
  if text = Cell.none then ""
  else
    let s := cellStr text
    if strAny isArabicChar s then get_display (reshape s) else s

/-- The per-cell treatment of a data cell inside `df_to_table_data`
(src/app.py lines 82–86): a missing (`pd.isna`) cell becomes `""`,
every other cell is shaped with `reshape_rtl`. -/
def cellToDisplay (cell : Cell) : String :=
  if cell.isna then "" else reshape_rtl cell

/-- A pandas DataFrame as read from one sheet: column labels plus the
data rows (pandas keeps rows rectangular: each row has one entry per
column). -/
structure DataFrame where
  columns : List Cell
  rows : List (List Cell)
deriving DecidableEq, Repr

/-- The grid builder `df_to_table_data` (src/app.py lines 72–89): the header row is the
shaped column labels; each data row maps missing cells to `""` and the
rest through `reshape_rtl`. -/
def df_to_table_data (df : DataFrame) : List (List String) :=
  (df.columns.map reshape_rtl) :: df.rows.map (fun r => r.map cellToDisplay)

/-- The filesystem-illegal characters stripped from sheet names
(src/app.py line 51). -/
def invalidChars : List Char :=
  ['\\', '/', ':', '*', '?', '"', '<', '>', '|']

/-- Whitespace removed by Python `str.strip()` at the ends of a string
(the ASCII whitespace characters; the app only ever strips spaces from
sheet names). -/
def isPySpace (c : Char) : Bool :=
  c = ' ' || c = '\t' || c = '\n' || c = '\r' || c = '\x0b' || c = '\x0c'

/-- Python `str.strip()`: drop leading and trailing whitespace. -/
def pyStrip (s : String) : String :=
  ⟨((s.data.dropWhile isPySpace).reverse.dropWhile isPySpace).reverse⟩

/-- The sanitizer `sanitize_filename` (src/app.py lines 48–52): remove the
filesystem-illegal characters, strip surrounding whitespace, and fall
back to `"sheet"` when the result is the (falsy) empty string. -/
def sanitize_filename (name : String) : String :=
  let kept := pyStrip (strFilter (fun c => !invalidChars.contains c) name)
  if kept = "" then "sheet" else kept

/-- A page size in millimetres. -/
structure PageSize where
  w : Nat
  h : Nat
deriving DecidableEq, Repr

/-- The fixed base paper size A4 (portrait), in millimetres. -/
def a4 : PageSize := ⟨210, 297⟩

/-- The reportlab `landscape` helper: reorder the dimensions so the larger is
the width. -/
def landscapePS (p : PageSize) : PageSize :=
  if p.w < p.h then ⟨p.h, p.w⟩ else p

/-- Page-size choice of `convert` (src/app.py lines 150–156): landscape
A4 when the header row has more than 6 columns, else portrait A4; a
lookup failure on `data[0]` (impossible here, `data` always starts with
the header row) would also yield portrait A4, which `List.headD` models
by returning `[]` for an empty list. -/
def choosePageSize (data : List (List String)) : PageSize :=
  if 6 < (data.headD []).length then landscapePS a4 else a4

/-- One sheet of the workbook: its display name and the DataFrame read
from it. -/
structure Sheet where
  name : String
  df : DataFrame
deriving DecidableEq, Repr

/-- A successfully parsed workbook: its sheets in workbook order. -/
structure Workbook where
  sheets : List Sheet
deriving DecidableEq, Repr

/-- The empty-sheet test of `convert` (src/app.py line 137):
`df.dropna(how='all').empty` — dropping every all-missing row leaves
nothing, i.e. every cell of every data row is missing. -/
def sheetIsEmpty (s : Sheet) : Bool :=
  s.df.rows.all (fun r => r.all Cell.isna)

/-- The rendered artifact `convert` produces for one non-empty sheet:
its PDF file name, the page size, the visible title, and the shaped
table grid (src/app.py lines 140–212). -/
structure RenderedDocument where
  filename : String
  pageSize : PageSize
  title : String
  table : List (List String)
deriving DecidableEq, Repr

/-- Rendering of one sheet inside the `convert` loop (src/app.py lines
140–210): shape the grid, sanitize the sheet name into the PDF file
name, pick the page size, and use the shaped sheet name as title. -/
def renderSheet (s : Sheet) : RenderedDocument :=
  let data := df_to_table_data s.df
  { filename := sanitize_filename s.name ++ ".pdf"
    pageSize := choosePageSize data
    title := reshape_rtl (Cell.str s.name)
    table := data }

/-- The per-sheet loop of `convert` (src/app.py lines 127–212): walk
the sheets in workbook order, skip a sheet whose dropna-test says it is
empty, and accumulate one rendered document per remaining sheet. -/
def processSheets : List Sheet → List RenderedDocument
  | [] => []
  | s :: rest =>
    if sheetIsEmpty s then processSheets rest
    else renderSheet s :: processSheets rest

/-- Outcome of a conversion request after upload validation
(src/app.py lines 118–227): the workbook-level parse failure (lines
121–123), the "no non-empty sheets" warning (lines 214–216), or the
ordered rendered documents that get zipped. -/
inductive ConversionResult where
  | readError (msg : String)
  | emptyWarning
  | ok (docs : List RenderedDocument)
deriving DecidableEq, Repr

/-- The documents a conversion outcome delivers to the caller: only the
success case carries any. -/
def docsOf : ConversionResult → List RenderedDocument
  | .ok docs => docs
  | _ => []

/-- The request handler `convert` (src/app.py lines 118–227) after upload validation: a
workbook-level parse failure aborts with an error message before any
sheet is processed; otherwise the sheets are processed in order and an
empty accumulation is reported as a warning. -/
def convert (parsed : Except String Workbook) : ConversionResult :=
  match parsed with
  | .error msg => .readError msg
  | .ok wb =>
    let docs := processSheets wb.sheets
    if docs.isEmpty then .emptyWarning else .ok docs

/-! ## Helper lemmas -/

/-- The untriggered branch of `reshape_rtl`: a string without
Arabic-range characters passes through unchanged. -/
theorem reshape_rtl_passthrough (s : String) (h : strAny isArabicChar s = false) :
    reshape_rtl (Cell.str s) = s := by
  simp [reshape_rtl, cellStr, h]

/-- The sheet loop is the filter of the non-empty sheets rendered in
order. -/
theorem processSheets_eq_filter_map (l : List Sheet) :
    processSheets l = (l.filter (fun s => !sheetIsEmpty s)).map renderSheet := by
  induction l with
  | nil => rfl
  | cons s rest ih =>
    by_cases h : sheetIsEmpty s = true
    · simp [processSheets, h, ih]
    · simp only [Bool.not_eq_true] at h
      simp [processSheets, h, ih]

/-! ## Claims -/

/-- C2: for every input string containing no codepoint in the Arabic
ranges U+0600–U+06FF, U+0750–U+077F, U+08A0–U+08FF, `reshape_rtl`
returns exactly the stringification of the input, unchanged. -/
theorem shape_non_arabic_passthrough (s : String)
    (h : strAny isArabicChar s = false) :
    reshape_rtl (Cell.str s) = s :=
  reshape_rtl_passthrough s h

/-- Witness for C2 at the concrete non-Arabic string "hello world". -/
theorem shape_non_arabic_passthrough_witness :
    strAny isArabicChar "hello world" = false ∧
      reshape_rtl (Cell.str "hello world") = "hello world" :=
  ⟨by decide, shape_non_arabic_passthrough "hello world" (by decide)⟩

/-- C3: every missing cell — Python `None` or the NaN sentinel — is
shaped to the empty string by the per-cell pipeline (the `pd.isna`
check of `df_to_table_data` composed with `reshape_rtl`, whose own
first step maps `None` to `""`). -/
theorem shape_missing_cell_empty :
    (∀ c : Cell, c.isna = true → cellToDisplay c = "") ∧
      reshape_rtl Cell.none = "" := by
  constructor
  · intro c h
    simp [cellToDisplay, h]
  · rfl

/-- Witness for C3 at the two concrete missing values `None` and NaN. -/
theorem shape_missing_cell_empty_witness :
    cellToDisplay Cell.none = "" ∧ cellToDisplay Cell.nan = "" :=
  ⟨shape_missing_cell_empty.1 Cell.none rfl,
   shape_missing_cell_empty.1 Cell.nan rfl⟩

/-- C5: the rendered page is portrait A4 when the header row has at
most 6 columns and landscape A4 when it has more than 6; landscape is
the same fixed base paper size with the dimensions exchanged. -/
theorem page_orientation_by_column_count (data : List (List String)) :
    ((data.headD []).length ≤ 6 → choosePageSize data = a4) ∧
      (6 < (data.headD []).length → choosePageSize data = landscapePS a4) ∧
      (landscapePS a4).w = a4.h ∧ (landscapePS a4).h = a4.w := by
  refine ⟨fun h => ?_, fun h => ?_, rfl, rfl⟩
  · unfold choosePageSize
    rw [if_neg (Nat.not_lt.mpr h)]
  · unfold choosePageSize
    rw [if_pos h]

/-- Witness for C5: a 6-column header renders portrait, a 7-column
header renders landscape. -/
theorem page_orientation_by_column_count_witness :
    choosePageSize [["a", "b", "c", "d", "e", "f"]] = a4 ∧
      choosePageSize [["a", "b", "c", "d", "e", "f", "g"]] = landscapePS a4 :=
  ⟨(page_orientation_by_column_count [["a", "b", "c", "d", "e", "f"]]).1 (by decide),
   (page_orientation_by_column_count [["a", "b", "c", "d", "e", "f", "g"]]).2.1 (by decide)⟩

/-- C8: a workbook-level parse failure aborts the conversion with the
error outcome, and that outcome delivers no documents at all. -/
theorem parse_failure_aborts_with_no_documents (msg : String) :
    convert (Except.error msg) = ConversionResult.readError msg ∧
      docsOf (convert (Except.error msg)) = [] :=
  ⟨rfl, rfl⟩

/-- C1: for a workbook with N non-empty sheets, `convert` delivers
exactly N rendered documents — one per non-empty sheet, in workbook
order (the delivered list is the in-order rendering of exactly the
non-empty sheets). -/
theorem convert_doc_count_and_order (wb : Workbook) :
    docsOf (convert (Except.ok wb)) =
      (wb.sheets.filter (fun s => !sheetIsEmpty s)).map renderSheet ∧
      (docsOf (convert (Except.ok wb))).length =
        (wb.sheets.filter (fun s => !sheetIsEmpty s)).length := by
  have hmain : docsOf (convert (Except.ok wb)) =
      (wb.sheets.filter (fun s => !sheetIsEmpty s)).map renderSheet := by
    show docsOf (if (processSheets wb.sheets).isEmpty then
        ConversionResult.emptyWarning else ConversionResult.ok (processSheets wb.sheets)) = _
    by_cases h : (processSheets wb.sheets).isEmpty = true
    · rw [if_pos h]
      rw [List.isEmpty_iff] at h
      rw [processSheets_eq_filter_map] at h
      simpa [docsOf] using h.symm
    · rw [if_neg h]
      exact processSheets_eq_filter_map wb.sheets
  exact ⟨hmain, by rw [hmain, List.length_map]⟩

/-- C6: a sheet in which every cell of every row is missing contributes
no document and no error: the loop's output over any surrounding sheets
is exactly what it is with that sheet removed. -/
theorem empty_sheet_skipped (pre post : List Sheet) (s : Sheet)
    (h : sheetIsEmpty s = true) :
    processSheets (pre ++ s :: post) = processSheets (pre ++ post) := by
  rw [processSheets_eq_filter_map, processSheets_eq_filter_map,
    List.filter_append, List.filter_append, List.filter_cons_of_neg]
  simp [h]

/-- Witness for C6: a sheet whose single row is a single NaN cell is
skipped between two non-empty sheets. -/
theorem empty_sheet_skipped_witness :
    sheetIsEmpty ⟨"empty", ⟨[Cell.str "h"], [[Cell.nan]]⟩⟩ = true ∧
      processSheets ([⟨"one", ⟨[Cell.str "h"], [[Cell.int 1]]⟩⟩] ++
          ⟨"empty", ⟨[Cell.str "h"], [[Cell.nan]]⟩⟩ ::
            [⟨"two", ⟨[Cell.str "h"], [[Cell.int 2]]⟩⟩]) =
        processSheets ([⟨"one", ⟨[Cell.str "h"], [[Cell.int 1]]⟩⟩] ++
          [⟨"two", ⟨[Cell.str "h"], [[Cell.int 2]]⟩⟩]) :=
  ⟨by decide,
   empty_sheet_skipped [⟨"one", ⟨[Cell.str "h"], [[Cell.int 1]]⟩⟩]
     [⟨"two", ⟨[Cell.str "h"], [[Cell.int 2]]⟩⟩]
     ⟨"empty", ⟨[Cell.str "h"], [[Cell.nan]]⟩⟩ (by decide)⟩

/-- C9: a workbook that parses but whose sheets are all empty yields
the structured empty-input warning, an outcome distinct from every
unreadable-workbook failure. -/
theorem all_empty_sheets_yield_warning (wb : Workbook)
    (h : ∀ s ∈ wb.sheets, sheetIsEmpty s = true) :
    convert (Except.ok wb) = ConversionResult.emptyWarning ∧
      ∀ msg, ConversionResult.emptyWarning ≠ ConversionResult.readError msg := by
  refine ⟨?_, fun msg hne => by cases hne⟩
  have hfilter : wb.sheets.filter (fun s => !sheetIsEmpty s) = [] := by
    rw [List.filter_eq_nil_iff]
    intro s hs
    simp [h s hs]
  show (if (processSheets wb.sheets).isEmpty then ConversionResult.emptyWarning
      else ConversionResult.ok (processSheets wb.sheets)) = _
  rw [processSheets_eq_filter_map, hfilter]
  rfl

/-- Witness for C9 at a one-sheet workbook whose only row is missing. -/
theorem all_empty_sheets_yield_warning_witness :
    (∀ s ∈ (Workbook.mk [⟨"empty", ⟨[Cell.str "h"], [[Cell.nan, Cell.none]]⟩⟩]).sheets,
        sheetIsEmpty s = true) ∧
      convert (Except.ok (Workbook.mk [⟨"empty", ⟨[Cell.str "h"], [[Cell.nan, Cell.none]]⟩⟩])) =
        ConversionResult.emptyWarning :=
  ⟨by decide,
   (all_empty_sheets_yield_warning
     (Workbook.mk [⟨"empty", ⟨[Cell.str "h"], [[Cell.nan, Cell.none]]⟩⟩]) (by decide)).1⟩

/-- Follows the claim's words for C4: the sanitized name is obtained by
removing exactly the characters `\ / : * ? " < > |` and preserving
every other character; only if that removal leaves nothing is the fixed
default `"sheet"` used. (For comparison with `sanitize_filename`, which
additionally strips surrounding whitespace.) -/
def sanitizeRemovalOnly (name : String) : String :=
  let kept : String := ⟨name.data.filter (fun c =>
    (c != '\\') && (c != '/') && (c != ':') && (c != '*') && (c != '?') &&
    (c != '"') && (c != '<') && (c != '>') && (c != '|'))⟩
  if kept = "" then "sheet" else kept

/-- The amended behaviour for C4: remove exactly the illegal
characters, then strip leading and trailing whitespace; only if the
stripped result is empty is the default `"sheet"` used. -/
def sanitizeRemovalStrip (name : String) : String :=
  let kept : String := pyStrip ⟨name.data.filter (fun c =>
    (c != '\\') && (c != '/') && (c != ':') && (c != '*') && (c != '?') &&
    (c != '"') && (c != '<') && (c != '>') && (c != '|'))⟩
  if kept = "" then "sheet" else kept

/-- C4 counterexample: on the sheet name `" a"` (a leading space, no
illegal character) the claimed removal-only sanitization keeps the
space, but `sanitize_filename` strips it. -/
theorem sanitize_filename_strips_spaces_counterexample :
    sanitizeRemovalOnly " a" = " a" ∧ sanitize_filename " a" = "a" ∧
      sanitize_filename " a" ≠ sanitizeRemovalOnly " a" := by
  decide

/-- C4 amended: the sanitized name removes exactly the illegal
characters `\ / : * ? " < > |`, then strips leading and trailing
whitespace; if the result is then empty, the fixed default `"sheet"`
is used. -/
theorem sanitize_filename_removes_illegal_then_strips (name : String) :
    sanitize_filename name = sanitizeRemovalStrip name := by
  have hpred : ∀ c : Char, (!invalidChars.contains c) =
      ((c != '\\') && (c != '/') && (c != ':') && (c != '*') && (c != '?') &&
       (c != '"') && (c != '<') && (c != '>') && (c != '|')) := by
    intro c
    rw [Bool.eq_iff_iff]
    simp only [Bool.not_eq_true', Bool.and_eq_true, bne_iff_ne, ne_eq,
      List.elem_eq_mem]
    simp [invalidChars]
    tauto
  unfold sanitize_filename sanitizeRemovalStrip strFilter
  rw [List.filter_congr (fun a _ => hpred a)]

/-- C10: the shaped grid built by `df_to_table_data` has one header row
of shaped column names followed by one row per data row; missing cells
become `""`, all other data cells are shaped; under the pandas
invariant that rows are rectangular, every output row has one entry per
column. -/
theorem df_to_table_data_dimensions_and_content (df : DataFrame)
    (h : ∀ r ∈ df.rows, r.length = df.columns.length) :
    (df_to_table_data df).length = df.rows.length + 1 ∧
      (df_to_table_data df).headD [] = df.columns.map reshape_rtl ∧
      (df_to_table_data df).tail =
        df.rows.map (fun r => r.map (fun c => if c.isna then "" else reshape_rtl c)) ∧
      ∀ row ∈ df_to_table_data df, row.length = df.columns.length := by
  refine ⟨by simp [df_to_table_data], rfl, rfl, ?_⟩
  intro row hrow
  simp only [df_to_table_data, List.mem_cons, List.mem_map] at hrow
  rcases hrow with hhead | ⟨r, hr, hmap⟩
  · rw [hhead, List.length_map]
  · rw [← hmap, List.length_map]
    exact h r hr

/-- Witness for C10 at the spec's concrete two-column sheet grid. -/
theorem df_to_table_data_dimensions_and_content_witness :
    (∀ r ∈ (DataFrame.mk [Cell.str "الاسم", Cell.str "العمر"]
        [[Cell.str "محمد", Cell.int 30]]).rows,
      r.length = (DataFrame.mk [Cell.str "الاسم", Cell.str "العمر"]
        [[Cell.str "محمد", Cell.int 30]]).columns.length) ∧
      (df_to_table_data (DataFrame.mk [Cell.str "الاسم", Cell.str "العمر"]
        [[Cell.str "محمد", Cell.int 30]])).length = 2 :=
  ⟨by decide,
   (df_to_table_data_dimensions_and_content
     (DataFrame.mk [Cell.str "الاسم", Cell.str "العمر"]
       [[Cell.str "محمد", Cell.int 30]]) (by decide)).1⟩

/-- The codepoint of the presentation form of an Arabic letter. -/
theorem toNat_presentationForm (c : Char) (h : isArabicLetter c = true) :
    (presentationForm c).toNat = 0xFE80 + (c.toNat - 0x621) := by
  have hc : 0x621 ≤ c.toNat ∧ c.toNat ≤ 0x64A := by
    simpa [isArabicLetter, Bool.and_eq_true, decide_eq_true_eq] using h
  unfold presentationForm Char.ofNat
  rw [dif_pos (Or.inr ⟨by omega, by omega⟩)]
  rfl

/-- Presentation forms lie outside the three Arabic detection ranges. -/
theorem isArabicChar_presentationForm (c : Char) (h : isArabicLetter c = true) :
    isArabicChar (presentationForm c) = false := by
  have hc : 0x621 ≤ c.toNat ∧ c.toNat ≤ 0x64A := by
    simpa [isArabicLetter, Bool.and_eq_true, decide_eq_true_eq] using h
  have ht := toNat_presentationForm c h
  rw [Bool.eq_false_iff]
  intro htrue
  simp only [isArabicChar, Bool.or_eq_true, Bool.and_eq_true, decide_eq_true_eq, ht] at htrue
  omega

/-- Presentation forms do count as right-to-left characters. -/
theorem isRTLChar_presentationForm (c : Char) (h : isArabicLetter c = true) :
    isRTLChar (presentationForm c) = true := by
  have hc : 0x621 ≤ c.toNat ∧ c.toNat ≤ 0x64A := by
    simpa [isArabicLetter, Bool.and_eq_true, decide_eq_true_eq] using h
  have ht := toNat_presentationForm c h
  have hband : (0xFB50 ≤ (presentationForm c).toNat &&
      (presentationForm c).toNat ≤ 0xFEFF) = true := by
    simp only [Bool.and_eq_true, decide_eq_true_eq, ht]
    omega
  unfold isRTLChar
  rw [hband, Bool.or_true]

/-- On a triggered string whose Arabic-range characters are all
letters, shaping reverses the reshaped string, and the result contains
no Arabic-range character any more. -/
theorem shape_triggered_no_arabic (s : String)
    (hall : ∀ c ∈ s.data, isArabicChar c = true → isArabicLetter c = true)
    (htrig : strAny isArabicChar s = true) :
    reshape_rtl (Cell.str s) = strReverse (reshape s) ∧
      strAny isArabicChar (reshape_rtl (Cell.str s)) = false := by
  have h1 : reshape_rtl (Cell.str s) = get_display (reshape s) := by
    simp [reshape_rtl, cellStr, htrig]
  obtain ⟨c, hc, hAr⟩ : ∃ c ∈ s.data, isArabicChar c = true := by
    simpa [strAny, List.any_eq_true] using htrig
  have hLet := hall c hc hAr
  have hmem : presentationForm c ∈ (reshape s).data := by
    simp only [reshape, strMap, List.mem_map]
    exact ⟨c, hc, by rw [if_pos hLet]⟩
  have hrtl : strAny isRTLChar (reshape s) = true := by
    simp only [strAny, List.any_eq_true]
    exact ⟨presentationForm c, hmem, isRTLChar_presentationForm c hLet⟩
  have h2 : get_display (reshape s) = strReverse (reshape s) := by
    simp [get_display, hrtl]
  have h3 : strAny isArabicChar (strReverse (reshape s)) = false := by
    rw [Bool.eq_false_iff]
    intro hany
    simp only [strAny, strReverse, reshape, strMap, List.any_eq_true,
      List.mem_reverse, List.mem_map] at hany
    obtain ⟨x, ⟨a, ha, hfa⟩, hAx⟩ := hany
    by_cases hLa : isArabicLetter a = true
    · rw [if_pos hLa] at hfa
      rw [← hfa] at hAx
      rw [isArabicChar_presentationForm a hLa] at hAx
      cases hAx
    · rw [if_neg hLa] at hfa
      rw [← hfa] at hAx
      exact hLa (hall a ha hAx)
  exact ⟨h1.trans h2, by rw [h1, h2]; exact h3⟩

/-- C7 counterexample: on the two-character string `"ا١"` (the Arabic
letter alef followed by the Arabic-Indic digit one) `reshape_rtl` is
not idempotent: the digit U+0661 stays inside the detection ranges, so
the already-shaped output is triggered and reordered again. -/
theorem shape_not_idempotent_counterexample :
    reshape_rtl (Cell.str (reshape_rtl (Cell.str "ا١"))) ≠
      reshape_rtl (Cell.str "ا١") := by
  decide

/-- C7 amended: `reshape_rtl` is idempotent on every string whose
Arabic-range codepoints are all Arabic letters (U+0621–U+064A): such
letters reshape to presentation forms outside the detection ranges, so
the shaped output is not triggered again and passes through unchanged. -/
theorem shape_idempotent_on_letter_strings (s : String)
    (hall : ∀ c ∈ s.data, isArabicChar c = true → isArabicLetter c = true) :
    reshape_rtl (Cell.str (reshape_rtl (Cell.str s))) =
      reshape_rtl (Cell.str s) := by
  cases htrig : strAny isArabicChar s with
  | false =>
    rw [reshape_rtl_passthrough s htrig]
    exact reshape_rtl_passthrough s htrig
  | true =>
    obtain ⟨_, hnone⟩ := shape_triggered_no_arabic s hall htrig
    exact reshape_rtl_passthrough _ hnone

/-- Witness for the amended C7 at the concrete all-letter Arabic string
`"اب"`. -/
theorem shape_idempotent_on_letter_strings_witness :
    (∀ c ∈ ("اب" : String).data, isArabicChar c = true → isArabicLetter c = true) ∧
      reshape_rtl (Cell.str (reshape_rtl (Cell.str "اب"))) =
        reshape_rtl (Cell.str "اب") :=
  ⟨by decide, shape_idempotent_on_letter_strings "اب" (by decide)⟩

end XlsToPdf
